import Mathlib

/-!
A verification development for the bridging core of the forcerelay
repository: the header-store alignment logic
(`crates/relayer/src/chain/ckb/utils.rs`), the Axon inclusion-proof
builder (`crates/relayer/src/chain/axon.rs`), the CKB transaction-proof
builder (`crates/relayer/src/chain/ckb4ibc/utils.rs`) and the Axon event
monitor (`crates/relayer/src/chain/axon/monitor.rs`), shallowly embedded
in Lean 4.  Machine integers (`u64` slots, block numbers) are modelled as
`Nat`; the code paths under study never overflow upwards, and the one
downward subtraction guarded by the code (`checked_sub`) is modelled
explicitly.
-/

namespace Forcerelay

/-- `eth_light_client_in_ckb_verification::types::core::Header`
(the fields of `EthHeader` copied by `into_cached_headers`). -/
structure EthLcHeader where
  slot : Nat
  proposer_index : Nat
  parent_root : Nat
  state_root : Nat
  body_root : Nat
deriving Repr, DecidableEq

/-- A header digest.  The hash function lives in an external crate and is
an assumed-correct primitive; the digest is modelled abstractly by the
header value itself (digests are only stored and compared for identity,
never inverted). -/
abbrev HeaderDigest := EthLcHeader

/-- `mmr::HeaderWithCache`: a header together with its cached digest. -/
structure HeaderWithCache where
  inner : EthLcHeader
  digest : HeaderDigest
deriving Repr, DecidableEq

/-- `Header::calc_cache` from the external mmr crate: pairs the header
with its digest (digest modelled by the header itself). -/
def calc_cache (h : EthLcHeader) : HeaderWithCache := ⟨h, h⟩

/-- `ibc_relayer_types::clients::ics07_eth::types::Update`, restricted to
the field read by the code under study (`finalized_header`). -/
structure EthUpdate where
  finalized_header : EthLcHeader
deriving Repr, DecidableEq

/-- `into_cached_headers` from `chain/ckb/utils.rs`. -/
def into_cached_headers (header_updates : List EthUpdate) : List HeaderWithCache :=
  header_updates.map (fun update => calc_cache update.finalized_header)

/-- The on-chain packed light client: the window attested as verified
(`minimal_slot`, `maximal_slot`). -/
structure PackedClient where
  minimal_slot : Nat
  maximal_slot : Nat
deriving Repr, DecidableEq

/-- `tendermint_light_client::errors::Error`, restricted to the
constructors produced by the code under study. -/
inductive LightClientError where
  | target_lower_than_trusted_state (target_height : Nat) (trusted_height : Nat)
  | missing_last_block_id (height : Nat)
deriving Repr, DecidableEq

/-- `crate::error::Error`, restricted to the constructors produced by the
code under study. -/
inductive Error where
  | empty_upgraded_client_state
  | light_client_verification (chain_id : String) (e : LightClientError)
  | send_tx (msg : String)
  | other_error (msg : String)
  | rpc_response (msg : String)
deriving Repr, DecidableEq

/-- Modelled from the spec: the Header Store of `ibc_relayer_storage`
(the crate is part of the repository but not under the sources provided).
It persists `base_slot` (first ever committed slot), `tip_slot` (highest
committed slot) and the ordered log of leaf digests; leaf index for slot
`s` is `s - base_slot`. -/
structure MmrStorage where
  base_slot : Option Nat
  tip_slot : Option Nat
  leaves : List HeaderDigest
deriving Repr, DecidableEq

namespace MmrStorage

/-- The empty (uninitialized) store. -/
def empty : MmrStorage := ⟨none, none, []⟩

/-- Modelled from the spec: `is_initialized` — whether a base slot has
been fixed. -/
def isInitialized (s : MmrStorage) : Bool := s.base_slot.isSome

/-- Modelled from the spec: `initialize_with(first_slot, first_digest)` —
fixes the base slot and stores the first leaf. -/
def initializeWith (s : MmrStorage) (first_slot : Nat) (d : HeaderDigest) : MmrStorage :=
  { s with base_slot := some first_slot, leaves := [d] }

/-- Modelled from the spec: `put_tip_beacon_header_slot`. -/
def putTipBeaconHeaderSlot (s : MmrStorage) (slot : Nat) : MmrStorage :=
  { s with tip_slot := some slot }

/-- Modelled from the spec: `get_base_beacon_header_slot`. -/
def getBaseBeaconHeaderSlot (s : MmrStorage) : Option Nat := s.base_slot

/-- Modelled from the spec: `get_tip_beacon_header_slot`. -/
def getTipBeaconHeaderSlot (s : MmrStorage) : Option Nat := s.tip_slot

/-- Modelled from the spec: `chain_root_mmr(last_slot)` opens an MMR over
the leaves of slots `base_slot .. last_slot`; modelled as that prefix of
the leaf log (leaf index for slot `s` is `s - base_slot`). -/
def chainRootMmr (s : MmrStorage) (last_slot : Nat) : List HeaderDigest :=
  s.leaves.take (last_slot + 1 - s.base_slot.getD 0)

/-- Modelled from the spec: committing an opened MMR writes its leaf log
back to storage. -/
def commitMmr (s : MmrStorage) (mmr : List HeaderDigest) : MmrStorage :=
  { s with leaves := mmr }

/-- Modelled from the spec: `rollback_to` — truncates the store so
`tip_slot` becomes the given slot (or fully empties it on `none`); the
base slot is never deleted once set. -/
def rollbackTo (s : MmrStorage) (slot : Option Nat) : MmrStorage :=
  match slot with
  | none => { s with tip_slot := none, leaves := [] }
  | some k =>
      { s with tip_slot := some k, leaves := s.leaves.take (k + 1 - s.base_slot.getD 0) }

end MmrStorage

/-- The loop body of `commit_headers_into_mmr_storage`: pushes each
remaining header digest onto the opened MMR while tracking `last_slot`. -/
def mmrPushLoop (start : List HeaderDigest × Nat) (hs : List HeaderWithCache) :
    List HeaderDigest × Nat :=
  hs.foldl (fun acc h => (acc.1 ++ [h.digest], h.inner.slot)) start

/-- `commit_headers_into_mmr_storage` from `chain/ckb/utils.rs`:
initializes the store on first use, pushes the (remaining) header digests
into the MMR, commits, and records the new tip slot.  Storage-level I/O
errors are out of scope, so the function is total on the model. -/
def commit_headers_into_mmr_storage (finalized_headers : List HeaderWithCache)
    (storage : MmrStorage) : MmrStorage :=
  match finalized_headers with
  | [] => storage
  | first :: rest =>
      if storage.isInitialized then
        let last_slot := first.inner.slot - 1
        let mmr := storage.chainRootMmr last_slot
        let (mmr, last_slot) := mmrPushLoop (mmr, last_slot) (first :: rest)
        ((storage.commitMmr mmr).putTipBeaconHeaderSlot last_slot)
      else
        let storage := (storage.initializeWith first.inner.slot first.digest).putTipBeaconHeaderSlot first.inner.slot
        let last_slot := first.inner.slot
        let mmr := storage.chainRootMmr last_slot
        let (mmr, last_slot) := mmrPushLoop (mmr, last_slot) rest
        ((storage.commitMmr mmr).putTipBeaconHeaderSlot last_slot)

/-- `into_height` from `chain/ckb/utils.rs` is an identity on the slot
number (conversion into `tendermint::block::Height`). -/
def into_height (slot : Nat) : Nat := slot

/-- The tail of `align_native_and_onchain_updates` after the base-slot
check: the tip-slot comparisons and the commits (lines 118-173 of
`chain/ckb/utils.rs`). -/
def alignTipChecks (chain_id : String) (header_updates : List EthUpdate)
    (storage : MmrStorage) (onchain_minimal_slot onchain_maximal_slot : Nat) :
    MmrStorage × Option Error :=
  let finalized_headers := into_cached_headers header_updates
  let upcoming_start_slot := (header_updates.headD ⟨⟨0, 0, 0, 0, 0⟩⟩).finalized_header.slot
  match storage.getTipBeaconHeaderSlot with
  | some stored_tip_slot =>
      -- recoverable condition: need to make native slots chase to onchain maximal slot
      if stored_tip_slot < onchain_maximal_slot then
        if upcoming_start_slot = stored_tip_slot + 1 then
          let storage := commit_headers_into_mmr_storage finalized_headers storage
          let stored_tip_slot := storage.getTipBeaconHeaderSlot.getD 0
          -- recoverable condition: need to make native tip slot chase to onchain maximal slot
          if stored_tip_slot < onchain_maximal_slot then
            (storage, some (Error.light_client_verification chain_id
              (LightClientError.missing_last_block_id (into_height (stored_tip_slot + 1)))))
          else
            (storage, none)
        else
          (storage, some (Error.light_client_verification chain_id
            (LightClientError.missing_last_block_id (into_height (stored_tip_slot + 1)))))
      else
        (storage, none)
  | none =>
      -- recoverable condition: empty native slots need to be recovered according to the onchain slots
      if upcoming_start_slot = onchain_minimal_slot then
        let storage := commit_headers_into_mmr_storage finalized_headers storage
        let stored_tip_slot := storage.getTipBeaconHeaderSlot.getD 0
        -- recoverable condition: need to make native tip slot chase to onchain maximal slot
        if stored_tip_slot < onchain_maximal_slot then
          (storage, some (Error.light_client_verification chain_id
            (LightClientError.missing_last_block_id (into_height (stored_tip_slot + 1)))))
        else
          (storage, none)
      else
        (storage, some (Error.light_client_verification chain_id
          (LightClientError.missing_last_block_id (into_height onchain_minimal_slot))))

/-- `align_native_and_onchain_updates` from `chain/ckb/utils.rs`.  The
Rust function mutates `storage` in place and returns `Result<(), Error>`;
the model threads the storage state explicitly and returns the post-call
state together with `none` for `Ok(())` or `some e` for `Err(e)` —
mutations performed before an error persist, exactly as in the source. -/
def align_native_and_onchain_updates (chain_id : String)
    (header_updates : List EthUpdate) (storage : MmrStorage)
    (onchain_packed_client : PackedClient) : MmrStorage × Option Error :=
  if header_updates.isEmpty then
    (storage, some Error.empty_upgraded_client_state)
  else
    let onchain_minimal_slot := onchain_packed_client.minimal_slot
    let onchain_maximal_slot := onchain_packed_client.maximal_slot
    -- check stored base slot is less than the onchain slot
    match storage.getBaseBeaconHeaderSlot with
    | some stored_base_slot =>
        if stored_base_slot > onchain_minimal_slot then
          -- unrecoverable condition
          (storage, some (Error.light_client_verification chain_id
            (LightClientError.target_lower_than_trusted_state
              (into_height onchain_minimal_slot) (into_height stored_base_slot))))
        else
          alignTipChecks chain_id header_updates storage onchain_minimal_slot onchain_maximal_slot
    | none =>
        alignTipChecks chain_id header_updates storage onchain_minimal_slot onchain_maximal_slot

/-- `mmr::lib::leaf_index_to_pos` from the external mmr crate maps a leaf
index to its MMR node position; the position arithmetic is opaque to the
code under study, which only forwards the positions to `gen_proof`, so it
is modelled as the identity on the index. -/
def leaf_index_to_pos (index : Nat) : Nat := index

/-- `packed::ProofUpdate`: the wire-format proof object.  The MMR root is
modelled by the committed leaf log it commits to, and the proof by the
list of leaf positions it covers. -/
structure PackedProofUpdate where
  new_headers_mmr_root : List HeaderDigest
  new_headers_mmr_proof : List Nat
  updates : List EthLcHeader
deriving Repr, DecidableEq

/-- Whether the update slots are internally contiguous starting at
`start` (`slot[i] = start + i`), as checked by
`get_verified_packed_client_and_proof_update`. -/
def slotsContinuous (header_updates : List EthUpdate) (start_slot : Nat) : Bool :=
  header_updates.enum.all (fun p => p.2.finalized_header.slot = p.1 + start_slot)

/-- Modelled from the spec: `core::Client::try_apply_packed_proof_update`
of the external `eth_light_client_in_ckb_verification` crate — applying a
proof update to an existing client succeeds when the updates form a
non-empty contiguous run starting right after the client's maximal slot,
and advances the maximal slot to the last update's slot. -/
def try_apply_packed_proof_update (client : PackedClient)
    (update : PackedProofUpdate) : Option PackedClient :=
  match update.updates with
  | [] => none
  | first :: _ =>
      let last := update.updates.getLastD first
      if first.slot = client.maximal_slot + 1
          ∧ update.updates.enum.all (fun p => p.2.slot = p.1 + first.slot) then
        some ⟨client.minimal_slot, last.slot⟩
      else
        none

/-- Modelled from the spec: `core::Client::new_from_packed_proof_update`
of the external verification crate — constructing a fresh client from a
proof update succeeds when the updates form a non-empty contiguous run,
yielding the window from the first to the last update's slot. -/
def new_from_packed_proof_update (update : PackedProofUpdate) : Option PackedClient :=
  match update.updates with
  | [] => none
  | first :: _ =>
      let last := update.updates.getLastD first
      if update.updates.enum.all (fun p => p.2.slot = p.1 + first.slot) then
        some ⟨first.slot, last.slot⟩
      else
        none

/-- The tail of `get_verified_packed_client_and_proof_update` after the
continuity checks and the storage trim (lines 229-292 of
`chain/ckb/utils.rs`): commit the headers, build the MMR root and proof,
assemble the packed proof update and self-verify it against the on-chain
client model. -/
def gvBuildAndVerify (header_updates : List EthUpdate) (storage : MmrStorage)
    (prev_tip_slot : Option Nat) (onchain_packed_client_opt : Option PackedClient) :
    MmrStorage × Except Error (Option Nat × PackedClient × PackedProofUpdate) :=
  let finalized_headers := into_cached_headers header_updates
  let start_slot := (header_updates.headD ⟨⟨0, 0, 0, 0, 0⟩⟩).finalized_header.slot
  let minimal_slot := storage.getBaseBeaconHeaderSlot.getD start_slot
  let maximal_slot := (finalized_headers.getLastD ⟨⟨0, 0, 0, 0, 0⟩, ⟨0, 0, 0, 0, 0⟩⟩).inner.slot
  -- save all header digests into storage for MMR
  let storage := commit_headers_into_mmr_storage finalized_headers storage
  -- get the new root and a proof for all new headers
  let positions := ((List.range (maximal_slot + 1 - start_slot)).map
    (fun k => leaf_index_to_pos (start_slot + k - minimal_slot)))
  let mmr := storage.chainRootMmr maximal_slot
  let packed_proof_update : PackedProofUpdate :=
    ⟨mmr, positions, header_updates.map (fun u => u.finalized_header)⟩
  -- invoke verification from core::Client on packed_proof_update
  match onchain_packed_client_opt with
  | some client =>
      match try_apply_packed_proof_update client packed_proof_update with
      | some c => (storage, .ok (prev_tip_slot, c, packed_proof_update))
      | none => (storage, .error (Error.send_tx "failed to update header"))
  | none =>
      match new_from_packed_proof_update packed_proof_update with
      | some c => (storage, .ok (prev_tip_slot, c, packed_proof_update))
      | none => (storage, .error (Error.send_tx "failed to create header"))

/-- The distinguished outcome of the Rust `assert_eq!(start_slot,
stored_tip_slot + 1)` failing (a process abort, not an `Err` return);
modelled as an error value so the function stays total. -/
def assertionFailed : Error := Error.other_error "assertion failed"

/-- The onchain-tip continuity check of
`get_verified_packed_client_and_proof_update` (lines 201-211 of
`chain/ckb/utils.rs`): requires the batch's first slot to follow the
onchain client's maximal slot; yields the previous tip on success. -/
def gvOnchainCheck (chain_id : String) (start_slot : Nat)
    (onchain_packed_client_opt : Option PackedClient) : Option Nat ⊕ Error :=
  match onchain_packed_client_opt with
  | some client =>
      let onchain_tip_slot := client.maximal_slot
      if start_slot ≠ onchain_tip_slot + 1 then
        Sum.inr (Error.light_client_verification chain_id
          (LightClientError.missing_last_block_id (into_height (onchain_tip_slot + 1))))
      else
        Sum.inl (some onchain_tip_slot)
  | none => Sum.inl none

/-- The stored-tip continuity step of
`get_verified_packed_client_and_proof_update` (lines 213-227 of
`chain/ckb/utils.rs`): trims excessive slots from storage by rolling back
to `start_slot - 1`, asserts continuity with the stored tip, then builds
and self-verifies the update. -/
def gvTrimAndBuild (header_updates : List EthUpdate) (storage : MmrStorage)
    (prev_tip_slot : Option Nat) (onchain_packed_client_opt : Option PackedClient) :
    MmrStorage × Except Error (Option Nat × PackedClient × PackedProofUpdate) :=
  let start_slot := (header_updates.headD ⟨⟨0, 0, 0, 0, 0⟩⟩).finalized_header.slot
  match storage.getTipBeaconHeaderSlot with
  | some stored_tip_slot =>
      -- trim excessive slots from storage
      let storage :=
        if start_slot ≤ stored_tip_slot then
          storage.rollbackTo (some (start_slot - 1))
        else storage
      let stored_tip_slot := storage.getTipBeaconHeaderSlot.getD 0
      if start_slot ≠ stored_tip_slot + 1 then
        (storage, .error assertionFailed)
      else
        gvBuildAndVerify header_updates storage prev_tip_slot onchain_packed_client_opt
  | none =>
      gvBuildAndVerify header_updates storage prev_tip_slot onchain_packed_client_opt

/-- `get_verified_packed_client_and_proof_update` from
`chain/ckb/utils.rs`, with the storage state threaded explicitly (the
Rust function mutates `storage` in place): validates continuity, trims
excessive slots via rollback, commits the batch, and builds and
self-verifies the packed proof update. -/
def get_verified_packed_client_and_proof_update (chain_id : String)
    (header_updates : List EthUpdate) (storage : MmrStorage)
    (onchain_packed_client_opt : Option PackedClient) :
    MmrStorage × Except Error (Option Nat × PackedClient × PackedProofUpdate) :=
  if header_updates.isEmpty then
    (storage, .error Error.empty_upgraded_client_state)
  else
    -- make sure the upcoming headers' slot are continuous
    let start_slot := (header_updates.headD ⟨⟨0, 0, 0, 0, 0⟩⟩).finalized_header.slot
    if ¬ slotsContinuous header_updates start_slot then
      (storage, .error (Error.send_tx "uncontinuous header slot"))
    else
      -- make sure the upcoming start slot is continuous with the onchain tip slot
      match gvOnchainCheck chain_id start_slot onchain_packed_client_opt with
      | Sum.inr e => (storage, .error e)
      | Sum.inl prev_tip_slot =>
          -- make sure the upcoming start slot is continuous with the stored tip slot
          gvTrimAndBuild header_updates storage prev_tip_slot onchain_packed_client_opt

/-! ### Axon inclusion-proof builder (`chain/axon.rs`, `get_proofs`) -/

/-- `hex::encode` over a hash; the exact hexadecimal rendering is an
external pure function, modelled by the decimal rendering (only string
identity and distinctness matter to the code under study). -/
def hexEncode (h : Nat) : String := toString h

/-- An Axon transaction receipt, restricted to the fields read by
`get_proofs`. -/
structure Receipt where
  block_number : Option Nat
  transaction_index : Nat
deriving Repr, DecidableEq

/-- The block object returned by `client.get_block`, restricted to the
field read by `get_proofs` (`block.transactions`). -/
structure AxonRpcBlock where
  transactions : List Nat
deriving Repr, DecidableEq

/-- The data gathered by `get_proofs_ingredients`: the Axon block, the
previous block's state root, the block's finality proof and the active
validator set (all opaque to the code under study, modelled as tokens). -/
structure ProofIngredients where
  axon_block : Nat
  state_root : Nat
  block_proof : Nat
  validators : List Nat
deriving Repr, DecidableEq

/-- The proof object assembled by `get_proofs`: the rlp encoding of the
receipt, its sibling-receipts proof, the block, state root and finality
proof, plus the requested height (the rlp byte encoding itself is an
external pure function, modelled by the record of its inputs). -/
structure AxonProofs where
  receipt : Receipt
  sibling_receipts : List Receipt
  proof_index : Nat
  ingredients : ProofIngredients
  height : Nat
deriving Repr, DecidableEq

/-- The remote-chain responses `get_proofs` consumes, as an oracle
(transport-level RPC failures are orthogonal to the claims and not
modelled).  `verify_block` is the outcome of the external
`axon_tools::verify_proof` signature check on the gathered ingredients;
`trie_verifies` is the outcome the external
`axon_tools::verify_trie_proof` receipt-trie check would give for this
transaction (the destination verifier runs the same check). -/
structure AxonProofEnv where
  transaction_receipt : Nat → Option Receipt
  get_block : Nat → Option AxonRpcBlock
  ingredients : Nat → Option ProofIngredients
  verify_block : ProofIngredients → Bool
  trie_verifies : Bool

/-- The sibling-receipt collection loop of `get_proofs`: resolves the
receipt of every transaction of the block, failing on the first miss. -/
def collectReceipts (env : AxonProofEnv) (txs : List Nat) : Except Error (List Receipt) :=
  txs.foldrM (fun tx acc =>
    match env.transaction_receipt tx with
    | some receipt => .ok (receipt :: acc)
    | none => .error (Error.other_error
        ("can't find transaction receipt with hash " ++ hexEncode tx))) []

/-- `get_proofs` from `chain/axon.rs`: resolves the receipt, its block,
all sibling receipts and the finality ingredients, assembles the proof
object, and runs the block-finality verification before returning.  The
receipts-trie verification is commented out in the source (`FIXME: keep
it commentted until Axon team fixed this verify issue`), so
`env.trie_verifies` is never consulted. -/
def get_proofs (env : AxonProofEnv) (tx_hash : Nat) (height : Nat) :
    Except Error AxonProofs :=
  match env.transaction_receipt tx_hash with
  | none => .error (Error.other_error
      ("can't find transaction receipt with hash " ++ hexEncode tx_hash))
  | some receipt =>
    match receipt.block_number with
    | none => .error (Error.other_error
        ("transaction " ++ hexEncode tx_hash ++ " is still pending"))
    | some block_number =>
      match env.get_block block_number with
      | none => .error (Error.other_error
          ("can't find block with number " ++ toString block_number))
      | some block =>
        match collectReceipts env block.transactions with
        | .error e => .error e
        | .ok tx_receipts =>
          match env.ingredients block_number with
          | none => .error (Error.rpc_response "failed to gather proof ingredients")
          | some ingredients =>
            let proofs : AxonProofs :=
              ⟨receipt, tx_receipts, receipt.transaction_index, ingredients, height⟩
            -- check the validation of Axon block
            if env.verify_block ingredients then
              .ok proofs
            else
              .error (Error.rpc_response "unverified axon block")

/-! ### CKB transaction-proof builder (`chain/ckb4ibc/utils.rs`,
`generate_tx_proof_from_block`) -/

/-- A CKB transaction, restricted to the derived values the code reads
(its transaction hash and witness hash, computed by external hash
primitives and modelled as fields). -/
structure CkbTx where
  tx_hash : Nat
  witness_hash : Nat
deriving Repr, DecidableEq

/-- The `TransactionAndWitnessProof` RPC response. -/
structure TxAndWitnessProof where
  block_hash : Nat
  transactions_proof : Nat
  witnesses_proof : Nat
deriving Repr, DecidableEq

/-- The `VerifyProofPayload` assembled for the on-chain verifier. -/
structure VerifyProofPayload where
  verify_type : Nat
  transactions_root : Nat
  witnesses_root : Nat
  raw_transactions_root : Nat
  proof_token : Nat
  leaf : Nat
deriving Repr, DecidableEq

/-- The proof object returned by `generate_tx_proof_from_block`. -/
structure CkbProofs where
  ckb_transaction : CkbTx
  block_hash : Nat
  proof_payload : VerifyProofPayload
  height : Nat
deriving Repr, DecidableEq

/-- The remote-chain responses and external pure primitives
`generate_tx_proof_from_block` consumes. `merkle_root_from` models
`jsonrpc_merkle_root` (root reconstruction of a proof against one leaf),
`merkle_root_pair` the CKB `merkle_root` of two subtree roots, and
`verify_payload` the external `verify_proof` re-verification. -/
structure CkbProofEnv where
  get_transaction : Nat → Option (Option Nat × Option CkbTx)
  get_header_root : Nat → Option (Nat × Nat)
  tx_witness_proof : Nat → Nat → Option TxAndWitnessProof
  merkle_root_from : Nat → Nat → Option Nat
  merkle_root_pair : Nat → Nat → Nat
  verify_payload : VerifyProofPayload → Bool

/-- `generate_tx_proof_from_block` from `chain/ckb4ibc/utils.rs`:
resolves the transaction and its block hash, reconstructs the
transactions root from the merkle proofs, compares it with the header's
committed root, assembles the verify-proof payload and locally re-runs
`verify_proof` on it before returning.  `get_header_root` yields the
header's `(transactions_root, number)`; its `.expect("invalid
block_hash")` panic is modelled by `assertionFailed`. -/
def generate_tx_proof_from_block (env : CkbProofEnv) (tx_hash : Nat) :
    Except Error (Option CkbProofs) :=
  match env.get_transaction tx_hash with
  | some (some block_hash, some transaction) =>
    match env.get_header_root block_hash with
    | none => .error assertionFailed
    | some (header_transactions_root, header_number) =>
      match env.tx_witness_proof tx_hash block_hash with
      | none => .error (Error.rpc_response "get_transaction_and_witness_proof")
      | some proof_resp =>
        let transaction_hash := transaction.tx_hash
        let witness_hash := transaction.witness_hash
        match env.merkle_root_from proof_resp.transactions_proof transaction_hash,
              env.merkle_root_from proof_resp.witnesses_proof witness_hash with
        | some raw_transactions_root, some witnesses_root =>
          let transactions_root := env.merkle_root_pair raw_transactions_root witnesses_root
          if transactions_root ≠ header_transactions_root then
            .error (Error.other_error "unexpected transactions_root")
          else
            let proof_payload : VerifyProofPayload :=
              ⟨1, header_transactions_root, witnesses_root, raw_transactions_root,
                proof_resp.witnesses_proof, witness_hash⟩
            if env.verify_payload proof_payload then
              .ok (some ⟨transaction, proof_resp.block_hash, proof_payload, header_number⟩)
            else
              .error (Error.other_error "proof payload verify failed")
        | _, _ => .error (Error.other_error "merkle root")
  | _ => .error (Error.other_error
      ("cannot find block_hash from tx " ++ hexEncode tx_hash))

/-! ### Tx-hash correlation cache (`chain/axon.rs`,
`cache_ics_tx_hash_with_event` / `cache_ics_tx_hash`) -/

/-- Connection-handshake event attributes (the `connection_id` field is
optional in `ibc_relayer_types` and unwrapped by the code). -/
structure ConnAttributes where
  connection_id : Option Nat
deriving Repr, DecidableEq

/-- Channel-handshake event attributes. -/
structure ChanAttributes where
  channel_id : Option Nat
  port_id : Nat
deriving Repr, DecidableEq

/-- A packet, restricted to the fields read by the cache dispatch. -/
structure PacketData where
  source_channel : Nat
  source_port : Nat
  destination_channel : Nat
  destination_port : Nat
  sequence : Nat
deriving Repr, DecidableEq

/-- `ibc_relayer_types::events::IbcEvent`, restricted to the variants
named by the cache dispatch plus representatives of every wildcard-arm
family (client events, channel-close events, the remaining packet events,
chain-level events). -/
inductive IbcEvent where
  | OpenInitConnection (a : ConnAttributes)
  | OpenTryConnection (a : ConnAttributes)
  | OpenAckConnection (a : ConnAttributes)
  | OpenConfirmConnection (a : ConnAttributes)
  | OpenInitChannel (a : ChanAttributes)
  | OpenTryChannel (a : ChanAttributes)
  | OpenAckChannel (a : ChanAttributes)
  | OpenConfirmChannel (a : ChanAttributes)
  | SendPacket (p : PacketData)
  | ReceivePacket (p : PacketData)
  | CloseInitChannel (a : ChanAttributes)
  | CloseConfirmChannel (a : ChanAttributes)
  | WriteAcknowledgement (p : PacketData)
  | AcknowledgePacket (p : PacketData)
  | TimeoutPacket (p : PacketData)
  | CreateClient (client_id : Nat)
  | UpdateClient (client_id : Nat)
  | NewBlock (height : Nat)
deriving Repr, DecidableEq

/-- `CacheTxHashStatus`: which correlation-cache key an event maps to. -/
inductive CacheTxHashStatus where
  | Connection (conn_id : Nat)
  | Channel (chan_id : Nat) (port_id : Nat)
  | Packet (chan_id : Nat) (port_id : Nat) (sequence : Nat)
deriving Repr, DecidableEq

/-- Overwriting association-list insertion, modelling `HashMap::insert`. -/
def mapInsert {κ α : Type} [DecidableEq κ] (k : κ) (v : α)
    (m : List (κ × α)) : List (κ × α) :=
  (k, v) :: m.filter (fun p => p.1 ≠ k)

/-- The tx-hash correlation cache (`IBCInfoCache` / the `conn_tx_hash`,
`chan_tx_hash`, `packet_tx_hash` maps of `AxonChain`). -/
structure IBCInfoCache where
  conn_tx_hash : List (Nat × Nat)
  chan_tx_hash : List ((Nat × Nat) × Nat)
  packet_tx_hash : List ((Nat × Nat × Nat) × Nat)
deriving Repr, DecidableEq

/-- The empty cache. -/
def IBCInfoCache.empty : IBCInfoCache := ⟨[], [], []⟩

/-- `cache_ics_tx_hash` from `chain/axon.rs`: inserts the hash into the
map selected by the cache key (the Rust function always returns
`Ok(())`). -/
def cache_ics_tx_hash (cache : IBCInfoCache) (cached_status : CacheTxHashStatus)
    (tx_hash : Nat) : IBCInfoCache :=
  match cached_status with
  | .Connection conn_id =>
      { cache with conn_tx_hash := mapInsert conn_id tx_hash cache.conn_tx_hash }
  | .Channel chan_id port_id =>
      { cache with chan_tx_hash := mapInsert (chan_id, port_id) tx_hash cache.chan_tx_hash }
  | .Packet chan_id port_id sequence =>
      { cache with packet_tx_hash :=
          mapInsert (chan_id, port_id, sequence) tx_hash cache.packet_tx_hash }

/-- The event dispatch of `cache_ics_tx_hash_with_event`: the cache key
an event's logical type maps to.  The outer `Option` is the `.unwrap()`
on the optional connection/channel identifier (`none` = panic); the inner
`Option` is the `tx_hash_status` of the source (`none` = wildcard arm,
nothing cached). -/
def event_cache_status (event : IbcEvent) : Option (Option CacheTxHashStatus) :=
  match event with
  | .OpenInitConnection a => a.connection_id.map (fun c => some (.Connection c))
  | .OpenTryConnection a => a.connection_id.map (fun c => some (.Connection c))
  | .OpenAckConnection a => a.connection_id.map (fun c => some (.Connection c))
  | .OpenConfirmConnection a => a.connection_id.map (fun c => some (.Connection c))
  | .OpenInitChannel a => a.channel_id.map (fun c => some (.Channel c a.port_id))
  | .OpenTryChannel a => a.channel_id.map (fun c => some (.Channel c a.port_id))
  | .OpenAckChannel a => a.channel_id.map (fun c => some (.Channel c a.port_id))
  | .OpenConfirmChannel a => a.channel_id.map (fun c => some (.Channel c a.port_id))
  | .SendPacket p => some (some (.Packet p.source_channel p.source_port p.sequence))
  | .ReceivePacket p => some (some (.Packet p.destination_channel p.destination_port p.sequence))
  | _ => some none

/-- `cache_ics_tx_hash_with_event` from `chain/axon.rs`: computes the
cache key for the event and inserts the hash when one exists (`none` =
the `.unwrap()` on a missing identifier panicked). -/
def cache_ics_tx_hash_with_event (cache : IBCInfoCache) (event : IbcEvent)
    (tx_hash : Nat) : Option IBCInfoCache :=
  match event_cache_status event with
  | none => none
  | some none => some cache
  | some (some tx_hash_status) => some (cache_ics_tx_hash cache tx_hash_status tx_hash)

/-! ### Axon event monitor (`chain/axon/monitor.rs`) -/

/-- `ethers::contract::LogMeta`, restricted to the fields read. -/
structure LogMeta where
  block_number : Nat
  transaction_hash : Nat
deriving Repr, DecidableEq

/-- `IbcEventWithHeight` as built by
`IbcEventWithHeight::new_with_tx_hash`. -/
structure IbcEventWithHeight where
  event : IbcEvent
  height : Nat
  tx_hash : Nat
deriving Repr, DecidableEq

/-- `EventBatch` as published by the monitor. -/
structure EventBatch where
  chain_id : String
  tracking_id : String
  height : Nat
  events : List IbcEventWithHeight
deriving Repr, DecidableEq

/-- The monitor state: chain id, polling position, events flagged for
reprocessing, the shared correlation cache, and the batches broadcast so
far (modelling the event bus as the log of published batches). -/
structure AxonEventMonitor where
  chain_id : String
  start_block_number : Nat
  reprocess_events : List (IbcEvent × LogMeta)
  ibc_cache : IBCInfoCache
  published : List EventBatch
deriving Repr, DecidableEq

/-- `AxonEventMonitor::process_event`: rewinds/advances
`start_block_number` to the event's block number, updates the correlation
cache and broadcasts a one-event batch (`none` = the cache update
panicked on a missing identifier). -/
def process_event (m : AxonEventMonitor) (event : IbcEvent) (meta : LogMeta) :
    Option AxonEventMonitor :=
  let m := { m with start_block_number := meta.block_number }
  match cache_ics_tx_hash_with_event m.ibc_cache event meta.transaction_hash with
  | none => none
  | some cache =>
      let ev : IbcEventWithHeight := ⟨event, meta.block_number, meta.transaction_hash⟩
      let batch : EventBatch :=
        ⟨m.chain_id, "Axon solidity event streaming", meta.block_number, [ev]⟩
      some { m with ibc_cache := cache, published := m.published ++ [batch] }

/-- `Next` from the monitor loop. -/
inductive Next where
  | Abort
  | Continue
deriving Repr, DecidableEq

/-- What `update_subscribe(true)` observed on the command channel this
cycle. -/
inductive CmdState where
  | shutdownRequested
  | noCommand
deriving Repr, DecidableEq

/-- The remote responses one polling cycle consumes: the command-channel
state, the current tip (`none` = RPC failure) and the event query over a
block range (`none` = RPC failure). -/
structure MonitorEnv where
  cmd : CmdState
  tip_block_number : Option Nat
  events_in : Nat → Nat → Option (List (IbcEvent × LogMeta))

/-- `AxonEventMonitor::run_once`: one polling cycle — non-blocking
command check, fetch the tip, fetch and process the events of
`[start_block_number, tip]`, then advance `start_block_number` to
`tip + 1`.  Returns the monitor plus `(Next, connection-still-good)`;
`none` = a cache update panicked. -/
def run_once (m : AxonEventMonitor) (env : MonitorEnv) :
    Option (AxonEventMonitor × Next × Bool) :=
  match env.cmd with
  | .shutdownRequested => some (m, .Abort, true)
  | .noCommand =>
    match env.tip_block_number with
    | none => some (m, .Continue, false)
    | some tip_block_number =>
      if m.start_block_number ≥ tip_block_number then
        some (m, .Continue, true)
      else
        match env.events_in m.start_block_number tip_block_number with
        | none => some (m, .Continue, false)
        | some events =>
          match events.foldlM (fun acc p => process_event acc p.1 p.2) m with
          | none => none
          | some m =>
            some ({ m with start_block_number := tip_block_number + 1 }, .Continue, true)

/-- The reprocessing prologue of `AxonEventMonitor::run`: drains
`reprocess_events` from the front, processing each restored event
(`none` = a cache update panicked). -/
def run_reprocess (m : AxonEventMonitor) : Option AxonEventMonitor :=
  m.reprocess_events.foldlM (fun acc p => process_event acc p.1 p.2)
    { m with reprocess_events := [] }

/-- `u64::checked_sub`. -/
def checked_sub (a b : Nat) : Option Nat :=
  if b ≤ a then some (a - b) else none

/-- The reprocess filter of `restore_event_tx_hashes`: packet-send and
write-acknowledgement events are flagged for reprocessing. -/
def restoreEventFilter (event : IbcEvent) : Bool :=
  match event with
  | .SendPacket _ => true
  | .WriteAcknowledgement _ => true
  | _ => false

/-- `AxonEventMonitor::restore_event_tx_hashes`: re-scans
`[start_block_number - latest_block_count, start_block_number]` (lower
bound by checked subtraction), flags packet-send/write-acknowledgement
events for reprocessing, and returns all restored events. -/
def restore_event_tx_hashes (m : AxonEventMonitor) (latest_block_count : Nat)
    (env : MonitorEnv) : AxonEventMonitor × Except Error (List IbcEventWithHeight) :=
  match checked_sub m.start_block_number latest_block_count with
  | none =>
      (m, .error (Error.other_error
        ("latest_block_count " ++ toString latest_block_count
          ++ " exceeds start_block_number " ++ toString m.start_block_number)))
  | some restore_block_number =>
    match env.events_in restore_block_number m.start_block_number with
    | none => (m, .error (Error.rpc_response "query_with_meta"))
    | some events =>
      let m := events.foldl (fun acc p =>
        if restoreEventFilter p.1 then
          { acc with reprocess_events := acc.reprocess_events ++ [p] }
        else acc) m
      (m, .ok (events.map (fun p => ⟨p.1, p.2.block_number, p.2.transaction_hash⟩)))

/-! ### Helper definitions for the statements -/

/-- The batch's first slot (`header_updates[0].finalized_header.slot`). -/
def batchFirstSlot (header_updates : List EthUpdate) : Nat :=
  (header_updates.headD ⟨⟨0, 0, 0, 0, 0⟩⟩).finalized_header.slot

/-- The batch's last slot
(`header_updates.last().unwrap().finalized_header.slot`). -/
def batchLastSlot (header_updates : List EthUpdate) : Nat :=
  (header_updates.map (fun u => u.finalized_header.slot)).getLastD 0

/-- A finality update carrying only a slot (all roots zero). -/
def mkUpdate (slot : Nat) : EthUpdate := ⟨⟨slot, 0, 0, 0, 0⟩⟩

/-- A contiguous batch of `len` updates starting at slot `start`. -/
def batchFrom (start len : Nat) : List EthUpdate :=
  (List.range len).map (fun i => mkUpdate (start + i))

/-! ### Supporting lemmas -/

theorem getLastD_map_cons (f : HeaderWithCache → Nat) (h : HeaderWithCache)
    (t : List HeaderWithCache) (s : Nat) :
    ((h :: t).map f).getLastD s = (t.map f).getLastD (f h) := by
  rw [List.map_cons, List.getLastD_cons]

theorem mmrPushLoop_eq (hs : List HeaderWithCache) (acc : List HeaderDigest) (s : Nat) :
    mmrPushLoop (acc, s) hs =
      (acc ++ hs.map (fun h => h.digest),
        (hs.map (fun h => h.inner.slot)).getLastD s) := by
  induction hs generalizing acc s with
  | nil => simp [mmrPushLoop]
  | cons h t ih =>
      simp only [mmrPushLoop, List.foldl_cons] at ih ⊢
      rw [ih]
      simp only [Prod.mk.injEq]
      constructor
      · simp
      · exact (getLastD_map_cons _ h t s).symm

/-- Committing a non-empty batch into an uninitialized store fixes the
base at the first slot, the tip at the last slot, and the leaf log at the
batch digests in order. -/
theorem commit_headers_uninit (first : HeaderWithCache) (rest : List HeaderWithCache) :
    commit_headers_into_mmr_storage (first :: rest) MmrStorage.empty =
      ⟨some first.inner.slot,
        some (((first :: rest).map (fun h => h.inner.slot)).getLastD 0),
        (first :: rest).map (fun h => h.digest)⟩ := by
  simp only [commit_headers_into_mmr_storage, MmrStorage.empty, MmrStorage.isInitialized,
    MmrStorage.initializeWith, MmrStorage.putTipBeaconHeaderSlot, MmrStorage.chainRootMmr,
    MmrStorage.commitMmr, Option.isSome_none, Bool.false_eq_true, if_false, mmrPushLoop_eq]
  rw [getLastD_map_cons]
  have h1 : first.inner.slot + 1 - (some first.inner.slot : Option Nat).getD 0 = 1 := by
    simp only [Option.getD_some]; omega
  rw [h1]
  simp [MmrStorage.mk.injEq]

/-- Committing a non-empty batch into an initialized store keeps the
base, sets the tip at the last slot, and appends the batch digests after
the leaves of the slots before the batch (`first.slot ≥ 1`: the Rust
`u64` computation `first.slot - 1` does not underflow). -/
theorem commit_headers_init (first : HeaderWithCache) (rest : List HeaderWithCache)
    (s : MmrStorage) (b : Nat) (hb : s.base_slot = some b) (h1 : 1 ≤ first.inner.slot) :
    commit_headers_into_mmr_storage (first :: rest) s =
      ⟨some b,
        some (((first :: rest).map (fun h => h.inner.slot)).getLastD 0),
        s.leaves.take (first.inner.slot - b) ++ (first :: rest).map (fun h => h.digest)⟩ := by
  simp only [commit_headers_into_mmr_storage, MmrStorage.isInitialized, hb,
    Option.isSome_some, if_true, MmrStorage.chainRootMmr, MmrStorage.commitMmr,
    MmrStorage.putTipBeaconHeaderSlot, mmrPushLoop_eq]
  have harith : first.inner.slot - 1 + 1 - (some b : Option Nat).getD 0
      = first.inner.slot - b := by
    simp only [Option.getD_some]; omega
  rw [harith]
  have htip : ((first :: rest).map (fun h => h.inner.slot)).getLastD (first.inner.slot - 1)
      = ((first :: rest).map (fun h => h.inner.slot)).getLastD 0 := by
    rw [getLastD_map_cons, getLastD_map_cons]
  rw [htip]

/-- The storage component of `gvBuildAndVerify` is the storage after the
commit, in every verification outcome. -/
theorem gvBuildAndVerify_fst (header_updates : List EthUpdate) (storage : MmrStorage)
    (prev_tip_slot : Option Nat) (onchain_packed_client_opt : Option PackedClient) :
    (gvBuildAndVerify header_updates storage prev_tip_slot onchain_packed_client_opt).1 =
      commit_headers_into_mmr_storage (into_cached_headers header_updates) storage := by
  unfold gvBuildAndVerify
  cases onchain_packed_client_opt with
  | none =>
      simp only
      split <;> rfl
  | some client =>
      simp only
      split <;> rfl

/-- In `gvTrimAndBuild`, when the stored tip `t` is at or beyond the
(non-empty) batch's first slot, storage is rolled back to the slot before
the batch and the batch is committed on top; the post-call store has the
same base, its tip at the batch's last slot, and the surviving leaf
prefix followed by the batch digests. -/
theorem gvTrimAndBuild_rolls_back_and_commits (header_updates : List EthUpdate)
    (storage : MmrStorage) (prev : Option Nat) (oc : Option PackedClient) (b t : Nat)
    (u : EthUpdate) (us : List EthUpdate) (hcons : header_updates = u :: us)
    (htip : storage.tip_slot = some t)
    (hbase : storage.base_slot = some b)
    (hbehind : u.finalized_header.slot ≤ t)
    (hb : b ≤ u.finalized_header.slot)
    (h1 : 1 ≤ u.finalized_header.slot) :
    (gvTrimAndBuild header_updates storage prev oc).1
      = ⟨some b, some (batchLastSlot header_updates),
          storage.leaves.take (u.finalized_header.slot - b)
            ++ (into_cached_headers header_updates).map (fun h => h.digest)⟩ := by
  subst hcons
  simp only [gvTrimAndBuild, MmrStorage.getTipBeaconHeaderSlot, htip, List.headD_cons]
  rw [if_pos hbehind]
  simp only [MmrStorage.rollbackTo, hbase, Option.getD_some]
  rw [if_neg (by omega)]
  rw [gvBuildAndVerify_fst]
  have hcached : into_cached_headers (u :: us)
      = calc_cache u.finalized_header :: us.map (fun x => calc_cache x.finalized_header) := rfl
  rw [hcached]
  rw [commit_headers_init (calc_cache u.finalized_header)
    (us.map (fun x => calc_cache x.finalized_header))
    ⟨some b, some (u.finalized_header.slot - 1),
      List.take (u.finalized_header.slot - 1 + 1 - b) storage.leaves⟩ b rfl h1]
  have harith : u.finalized_header.slot - 1 + 1 - b = u.finalized_header.slot - b := by omega
  simp only [calc_cache, harith, MmrStorage.mk.injEq, List.take_take, Nat.min_self]
  refine ⟨trivial, ?_, ?_⟩
  · simp only [List.map_cons, List.map_map]
    rfl
  · trivial

/-! ### The claims -/

/-- C1: for every non-empty header batch and remote on-chain client view,
if local storage is empty and the batch's first slot equals the remote
view's `minimal_slot`, then `align_native_and_onchain_updates` commits
all batch headers to storage in order: the post-call store has its base
at the batch's first slot, its tip at the batch's last slot, and the leaf
log holds exactly the batch digests in batch order. -/
theorem C1_align_commits_into_empty_storage (chain_id : String)
    (header_updates : List EthUpdate) (onchain : PackedClient)
    (hne : header_updates ≠ [])
    (hstart : batchFirstSlot header_updates = onchain.minimal_slot) :
    (align_native_and_onchain_updates chain_id header_updates MmrStorage.empty onchain).1
      = ⟨some (batchFirstSlot header_updates),
          some (batchLastSlot header_updates),
          (into_cached_headers header_updates).map (fun h => h.digest)⟩ := by
  cases header_updates with
  | nil => exact absurd rfl hne
  | cons u us =>
      simp only [align_native_and_onchain_updates, List.isEmpty_cons,
        Bool.false_eq_true, if_false, MmrStorage.getBaseBeaconHeaderSlot, MmrStorage.empty]
      simp only [alignTipChecks, MmrStorage.getTipBeaconHeaderSlot]
      rw [batchFirstSlot] at hstart
      rw [if_pos hstart]
      have hcom := commit_headers_uninit (calc_cache u.finalized_header)
        (us.map (fun x => calc_cache x.finalized_header))
      simp only [MmrStorage.empty] at hcom
      have hcached : into_cached_headers (u :: us)
          = calc_cache u.finalized_header :: us.map (fun x => calc_cache x.finalized_header) := rfl
      rw [hcached, hcom, apply_ite Prod.fst]
      simp only [ite_self]
      simp only [List.map_cons, List.map_map]
      rfl

/-- Witness for C1 at the spec's scenario: storage empty, remote window
`[100, 150]`, incoming batch `[100..120]` — the batch is committed and
the tip becomes 120. -/
theorem C1_witness :
    (align_native_and_onchain_updates "ckb" (batchFrom 100 21) MmrStorage.empty ⟨100, 150⟩).1
      = ⟨some 100, some 120, (into_cached_headers (batchFrom 100 21)).map (fun h => h.digest)⟩ := by
  have h := C1_align_commits_into_empty_storage "ckb" (batchFrom 100 21) ⟨100, 150⟩
    (by decide) (by decide)
  rw [h]
  decide

/-- C2: for every non-empty header batch, whenever storage has a recorded
base slot strictly greater than the remote client's `minimal_slot`,
`align_native_and_onchain_updates` fails with the fatal
light-client-verification error (`target_lower_than_trusted_state`) and
the store is returned unchanged — the unrecoverable check precedes any
recoverable gap check and any commit, whatever the tips and batch are. -/
theorem C2_align_fatal_on_base_regression (chain_id : String)
    (header_updates : List EthUpdate) (storage : MmrStorage)
    (onchain : PackedClient) (b : Nat)
    (hne : header_updates ≠ [])
    (hbase : storage.base_slot = some b)
    (hgt : b > onchain.minimal_slot) :
    align_native_and_onchain_updates chain_id header_updates storage onchain
      = (storage, some (Error.light_client_verification chain_id
          (LightClientError.target_lower_than_trusted_state
            (into_height onchain.minimal_slot) (into_height b)))) := by
  cases header_updates with
  | nil => exact absurd rfl hne
  | cons u us =>
      simp only [align_native_and_onchain_updates, List.isEmpty_cons,
        Bool.false_eq_true, if_false, MmrStorage.getBaseBeaconHeaderSlot, hbase]
      rw [if_pos hgt]

/-- Witness for C2: stored base 120, remote window `[100, 150]` — the
fatal error is returned and the store (including a pending tip at 130) is
untouched. -/
theorem C2_witness :
    align_native_and_onchain_updates "ckb" (batchFrom 131 2) ⟨some 120, some 130, []⟩ ⟨100, 150⟩
      = (⟨some 120, some 130, []⟩, some (Error.light_client_verification "ckb"
          (LightClientError.target_lower_than_trusted_state 100 120))) :=
  C2_align_fatal_on_base_regression "ckb" (batchFrom 131 2) ⟨some 120, some 130, []⟩
    ⟨100, 150⟩ 120 (by decide) (by decide) (by decide)

/-- C3: in `get_verified_packed_client_and_proof_update`, for every
internally contiguous non-empty batch that passes the onchain-tip
continuity requirement, if storage has a stored tip at or beyond the
batch's first slot then storage is first rolled back to the slot before
the batch (keeping the leaf prefix below it) and the batch is then
committed, so the final stored tip equals the batch's last slot. -/
theorem C3_trims_storage_then_commits (chain_id : String) (header_updates : List EthUpdate)
    (storage : MmrStorage) (onchain_opt : Option PackedClient) (b t : Nat)
    (hne : header_updates ≠ [])
    (hcont : slotsContinuous header_updates (batchFirstSlot header_updates) = true)
    (htip : storage.tip_slot = some t)
    (hbase : storage.base_slot = some b)
    (hbehind : batchFirstSlot header_updates ≤ t)
    (hb : b ≤ batchFirstSlot header_updates)
    (h1 : 1 ≤ batchFirstSlot header_updates)
    (honchain : ∀ c, onchain_opt = some c → batchFirstSlot header_updates = c.maximal_slot + 1) :
    (get_verified_packed_client_and_proof_update chain_id header_updates storage onchain_opt).1
      = ⟨some b, some (batchLastSlot header_updates),
          storage.leaves.take (batchFirstSlot header_updates - b)
            ++ (into_cached_headers header_updates).map (fun h => h.digest)⟩ := by
  cases header_updates with
  | nil => exact absurd rfl hne
  | cons u us =>
      simp only [batchFirstSlot, List.headD_cons] at hcont hbehind hb h1 honchain ⊢
      simp only [get_verified_packed_client_and_proof_update, List.isEmpty_cons,
        Bool.false_eq_true, if_false, List.headD_cons]
      rw [if_neg (by simp [hcont])]
      have hchecked : gvOnchainCheck chain_id u.finalized_header.slot onchain_opt
          = Sum.inl (onchain_opt.map (fun c => c.maximal_slot)) := by
        cases onchain_opt with
        | none => rfl
        | some c =>
            simp only [gvOnchainCheck]
            rw [if_neg (by simp [honchain c rfl])]
            rfl
      rw [hchecked]
      exact gvTrimAndBuild_rolls_back_and_commits (u :: us) storage _ onchain_opt b t u us rfl
        htip hbase hbehind hb h1

/-- Witness for C3 at the spec's scenario: stored tip at slot 200 (base
100), batch `[150..152]`, no onchain client — storage is rolled back to
slot 149 before the commit and the final tip is the batch's last slot. -/
theorem C3_witness :
    (get_verified_packed_client_and_proof_update "ckb" (batchFrom 150 3)
        ⟨some 100, some 200, (List.range 101).map (fun i => (⟨100 + i, 0, 0, 0, 0⟩ : EthLcHeader))⟩
        none).1
      = ⟨some 100, some 152,
          ((List.range 101).map (fun i => (⟨100 + i, 0, 0, 0, 0⟩ : EthLcHeader))).take 50
            ++ (into_cached_headers (batchFrom 150 3)).map (fun h => h.digest)⟩ := by
  have h := C3_trims_storage_then_commits "ckb" (batchFrom 150 3)
    ⟨some 100, some 200, (List.range 101).map (fun i => (⟨100 + i, 0, 0, 0, 0⟩ : EthLcHeader))⟩
    none 100 200 (by decide) (by decide) (by decide) (by decide) (by decide) (by decide)
    (by decide) (by intro c hc; cases hc)
  rw [h]
  decide

/-- C7: for every call where the incoming header batch is empty, both
`align_native_and_onchain_updates` and
`get_verified_packed_client_and_proof_update` return the
empty-upgraded-client-state error and leave the store unchanged. -/
theorem C7_empty_batch_rejected (chain_id : String) (storage : MmrStorage)
    (onchain : PackedClient) (onchain_opt : Option PackedClient) :
    align_native_and_onchain_updates chain_id [] storage onchain
        = (storage, some Error.empty_upgraded_client_state)
      ∧ get_verified_packed_client_and_proof_update chain_id [] storage onchain_opt
        = (storage, .error Error.empty_upgraded_client_state) := by
  constructor <;> rfl

/-- C4 counterexample: `align_native_and_onchain_updates` on empty
storage with remote window `[100, 150]` and batch `[100..102]` returns an
error (the recoverable tip-still-behind condition) yet has committed the
batch — the store differs from its pre-call state, refuting
all-or-nothing for rejected operations. -/
theorem C4_counterexample :
    (align_native_and_onchain_updates "ckb" (batchFrom 100 3) MmrStorage.empty ⟨100, 150⟩).2
        = some (Error.light_client_verification "ckb"
            (LightClientError.missing_last_block_id 103))
      ∧ (align_native_and_onchain_updates "ckb" (batchFrom 100 3) MmrStorage.empty ⟨100, 150⟩).1
        ≠ MmrStorage.empty := by
  decide

/-- C4 (amended): the invalid-input and pre-commit consistency rejections
leave the Header Store unchanged — empty batch, fatal base-slot
regression and slot-gap rejections in `align_native_and_onchain_updates`,
and empty batch, non-contiguous batch and onchain-tip-mismatch rejections
in `get_verified_packed_client_and_proof_update`; errors raised after a
commit (tip still behind the remote maximal slot, failed
self-verification) can instead leave the newly committed state in
place. -/
theorem C4_pre_commit_rejections_leave_store_unchanged (chain_id : String)
    (header_updates : List EthUpdate) (storage : MmrStorage)
    (onchain : PackedClient) (onchain_opt : Option PackedClient) :
    (header_updates = [] →
        align_native_and_onchain_updates chain_id header_updates storage onchain
          = (storage, some Error.empty_upgraded_client_state))
    ∧ (∀ b, header_updates ≠ [] → storage.base_slot = some b → b > onchain.minimal_slot →
        (align_native_and_onchain_updates chain_id header_updates storage onchain).1 = storage)
    ∧ (∀ t, header_updates ≠ [] → storage.tip_slot = some t → t < onchain.maximal_slot →
        batchFirstSlot header_updates ≠ t + 1 →
        (storage.base_slot = none
          ∨ ∃ b, storage.base_slot = some b ∧ b ≤ onchain.minimal_slot) →
        align_native_and_onchain_updates chain_id header_updates storage onchain
          = (storage, some (Error.light_client_verification chain_id
              (LightClientError.missing_last_block_id (into_height (t + 1))))))
    ∧ (header_updates = [] →
        get_verified_packed_client_and_proof_update chain_id header_updates storage onchain_opt
          = (storage, .error Error.empty_upgraded_client_state))
    ∧ (header_updates ≠ [] →
        slotsContinuous header_updates (batchFirstSlot header_updates) = false →
        get_verified_packed_client_and_proof_update chain_id header_updates storage onchain_opt
          = (storage, .error (Error.send_tx "uncontinuous header slot")))
    ∧ (∀ c, header_updates ≠ [] →
        slotsContinuous header_updates (batchFirstSlot header_updates) = true →
        onchain_opt = some c → batchFirstSlot header_updates ≠ c.maximal_slot + 1 →
        get_verified_packed_client_and_proof_update chain_id header_updates storage onchain_opt
          = (storage, .error (Error.light_client_verification chain_id
              (LightClientError.missing_last_block_id
                (into_height (c.maximal_slot + 1)))))) := by
  refine ⟨?_, ?_, ?_, ?_, ?_, ?_⟩
  · intro h; subst h; rfl
  · intro b hne hbase hgt
    cases header_updates with
    | nil => exact absurd rfl hne
    | cons u us =>
        simp only [align_native_and_onchain_updates, List.isEmpty_cons,
          Bool.false_eq_true, if_false, MmrStorage.getBaseBeaconHeaderSlot, hbase]
        rw [if_pos hgt]
  · intro t hne htip ht hgap hbaseok
    cases header_updates with
    | nil => exact absurd rfl hne
    | cons u us =>
        simp only [batchFirstSlot, List.headD_cons] at hgap
        have htail : alignTipChecks chain_id (u :: us) storage
            onchain.minimal_slot onchain.maximal_slot
            = (storage, some (Error.light_client_verification chain_id
                (LightClientError.missing_last_block_id (into_height (t + 1))))) := by
          simp only [alignTipChecks, MmrStorage.getTipBeaconHeaderSlot, htip,
            List.headD_cons]
          rw [if_pos ht, if_neg hgap]
        rcases hbaseok with hnone | ⟨b, hsome, hble⟩
        · simp only [align_native_and_onchain_updates, List.isEmpty_cons,
            Bool.false_eq_true, if_false, MmrStorage.getBaseBeaconHeaderSlot, hnone]
          exact htail
        · simp only [align_native_and_onchain_updates, List.isEmpty_cons,
            Bool.false_eq_true, if_false, MmrStorage.getBaseBeaconHeaderSlot, hsome]
          rw [if_neg (by omega)]
          exact htail
  · intro h; subst h; rfl
  · intro hne hcont
    cases header_updates with
    | nil => exact absurd rfl hne
    | cons u us =>
        simp only [batchFirstSlot, List.headD_cons] at hcont
        simp only [get_verified_packed_client_and_proof_update, List.isEmpty_cons,
          Bool.false_eq_true, if_false, List.headD_cons]
        rw [if_pos (by simp [hcont])]
  · intro c hne hcont hoc hmismatch
    cases header_updates with
    | nil => exact absurd rfl hne
    | cons u us =>
        simp only [batchFirstSlot, List.headD_cons] at hcont hmismatch
        simp only [get_verified_packed_client_and_proof_update, List.isEmpty_cons,
          Bool.false_eq_true, if_false, List.headD_cons, hoc]
        rw [if_neg (by simp [hcont])]
        simp only [gvOnchainCheck]
        rw [if_pos hmismatch]

/-- Witness for C4 (amended), slot-gap case: stored tip 120, remote
window `[100, 150]`, batch starting at 130 — rejected with the
gap error for slot 121 and the store unchanged. -/
theorem C4_witness :
    align_native_and_onchain_updates "ckb" (batchFrom 130 2) ⟨some 100, some 120, []⟩ ⟨100, 150⟩
      = (⟨some 100, some 120, []⟩, some (Error.light_client_verification "ckb"
          (LightClientError.missing_last_block_id 121))) :=
  (C4_pre_commit_rejections_leave_store_unchanged "ckb" (batchFrom 130 2)
    ⟨some 100, some 120, []⟩ ⟨100, 150⟩ none).2.2.1 120 (by decide) (by decide)
    (by decide) (by decide) (Or.inr ⟨100, rfl, by decide⟩)

/-- An environment in which every lookup succeeds and the block-finality
verification passes, but the receipts-trie check (as the destination
verifier would run it) fails. -/
def axonTrieFailEnv : AxonProofEnv :=
  ⟨fun tx => if tx = 5 then some ⟨some 10, 0⟩ else none,
   fun n => if n = 10 then some ⟨[5]⟩ else none,
   fun _ => some ⟨1, 2, 3, [4]⟩,
   fun _ => true,
   false⟩

/-- C5 counterexample: the Axon inclusion-proof builder returns a proof
object even though the transaction/receipt trie check fails (the check is
commented out in `get_proofs`), refuting that both verifications are
locally re-run before returning. -/
theorem C5_counterexample :
    axonTrieFailEnv.trie_verifies = false
      ∧ get_proofs axonTrieFailEnv 5 7
          = .ok ⟨⟨some 10, 0⟩, [⟨some 10, 0⟩], 0, ⟨1, 2, 3, [4]⟩, 7⟩ := by
  constructor
  · rfl
  · rfl

/-- C5 (amended): the self-verification actually implemented — the Axon
builder re-runs only the block finality/validator-signature check
(`axon_tools::verify_proof`) and never returns a proof when it fails,
while the receipts-trie check is disabled; the CKB builder re-runs the
transactions-root reconstruction against the header's committed root and
the local `verify_proof` on the payload, and never returns a proof when
either fails. -/
theorem C5_self_verification_as_implemented :
    (∀ env tx_hash height proofs, get_proofs env tx_hash height = .ok proofs →
        env.verify_block proofs.ingredients = true)
      ∧ (∀ env tx_hash proofs, generate_tx_proof_from_block env tx_hash = .ok (some proofs) →
          env.verify_payload proofs.proof_payload = true
            ∧ env.merkle_root_pair proofs.proof_payload.raw_transactions_root
                proofs.proof_payload.witnesses_root
              = proofs.proof_payload.transactions_root) := by
  constructor
  · intro env tx_hash height proofs hok
    simp only [get_proofs] at hok
    split at hok <;> try exact Except.noConfusion hok
    split at hok <;> try exact Except.noConfusion hok
    split at hok <;> try exact Except.noConfusion hok
    split at hok <;> try exact Except.noConfusion hok
    split at hok <;> try exact Except.noConfusion hok
    split at hok
    · rename_i ing hverify
      obtain rfl := (Except.ok.injEq _ _).mp hok
      simpa using hverify
    · exact Except.noConfusion hok
  · intro env tx_hash proofs hok
    simp only [generate_tx_proof_from_block] at hok
    split at hok <;> try exact Except.noConfusion hok
    split at hok <;> try exact Except.noConfusion hok
    split at hok <;> try exact Except.noConfusion hok
    split at hok <;> try exact Except.noConfusion hok
    split at hok <;> try exact Except.noConfusion hok
    split at hok
    · rename_i hroot hverify
      have hinj := (Except.ok.injEq _ _).mp hok
      have hinj2 := (Option.some.injEq _ _).mp hinj
      subst hinj2
      constructor
      · simpa using hverify
      · simp only [ne_eq, not_not] at hroot
        simpa using hroot
    · exact Except.noConfusion hok

/-- Witness for C5 (amended): in the same concrete environment the
returned proof's finality check did pass. -/
theorem C5_witness :
    axonTrieFailEnv.verify_block
        (⟨⟨some 10, 0⟩, [⟨some 10, 0⟩], 0, ⟨1, 2, 3, [4]⟩, 7⟩ : AxonProofs).ingredients = true :=
  C5_self_verification_as_implemented.1 axonTrieFailEnv 5 7
    ⟨⟨some 10, 0⟩, [⟨some 10, 0⟩], 0, ⟨1, 2, 3, [4]⟩, 7⟩ rfl

/-- C6: for every transaction whose receipt resolves but carries no block
number, `get_proofs` fails with the distinct "still pending" error (no
proof object is returned), and that error differs from the
missing-receipt error for the same transaction. -/
theorem C6_pending_transaction_distinct (env : AxonProofEnv) (tx_hash : Nat)
    (height : Nat) (r : Receipt)
    (hres : env.transaction_receipt tx_hash = some r)
    (hpending : r.block_number = none) :
    get_proofs env tx_hash height
        = .error (Error.other_error ("transaction " ++ hexEncode tx_hash ++ " is still pending"))
      ∧ Error.other_error ("transaction " ++ hexEncode tx_hash ++ " is still pending")
        ≠ Error.other_error ("can't find transaction receipt with hash "
            ++ hexEncode tx_hash) := by
  constructor
  · simp only [get_proofs, hres, hpending]
  · intro h
    have hs := (Error.other_error.injEq _ _).mp h
    have hl := congrArg String.length hs
    have e1 : ("transaction ").length = 12 := rfl
    have e2 : (" is still pending").length = 17 := rfl
    have e3 : ("can't find transaction receipt with hash ").length = 41 := rfl
    simp only [String.length_append, e1, e2, e3] at hl
    omega

/-- An environment whose transaction 9 has a receipt with no block
number assigned. -/
def axonPendingEnv : AxonProofEnv :=
  ⟨fun tx => if tx = 9 then some ⟨none, 3⟩ else none,
   fun _ => none, fun _ => none, fun _ => false, true⟩

/-- Witness for C6: a concrete pending transaction. -/
theorem C6_witness :
    get_proofs axonPendingEnv 9 0
        = .error (Error.other_error ("transaction " ++ hexEncode 9 ++ " is still pending"))
      ∧ Error.other_error ("transaction " ++ hexEncode 9 ++ " is still pending")
        ≠ Error.other_error ("can't find transaction receipt with hash " ++ hexEncode 9) :=
  C6_pending_transaction_distinct axonPendingEnv 9 0 ⟨none, 3⟩ rfl rfl

/-- A monitor as left by a restore: polling position 100, with a restored
packet-send event from block 50 flagged for reprocessing. -/
def restoredMonitor : AxonEventMonitor :=
  ⟨"axon", 100, [(.SendPacket ⟨1, 2, 3, 4, 5⟩, ⟨50, 9⟩)], IBCInfoCache.empty, []⟩

/-- C8 counterexample: reprocessing a restored event during run startup
sets `start_block_number` to the event's block number — here from 100
down to 50 — so the position does decrease across the monitor's whole
execution, refuting the never-decreases claim. -/
theorem C8_counterexample :
    (run_reprocess restoredMonitor).map (fun m => m.start_block_number) = some 50
      ∧ 50 < restoredMonitor.start_block_number := by
  constructor
  · rfl
  · decide

/-- C8 (amended): within every polling cycle `start_block_number` never
decreases — `run_once` leaves it unchanged on shutdown, RPC failure or an
up-to-date tip, and otherwise advances it to `tip + 1` only after every
event fetched from `[start_block_number, tip]` has been processed; and
each processed event publishes its one-event batch and sets the position
to that event's block number — which, for restored events reprocessed at
startup, can rewind the position below its previous value. -/
theorem C8_run_once_monotone_reprocess_rewinds :
    (∀ m env r, run_once m env = some r →
        m.start_block_number ≤ r.1.start_block_number)
      ∧ (∀ m env r, run_once m env = some r →
          r.1.start_block_number ≠ m.start_block_number →
          ∃ tip events mp, env.tip_block_number = some tip
            ∧ m.start_block_number < tip
            ∧ env.events_in m.start_block_number tip = some events
            ∧ events.foldlM (fun acc p => process_event acc p.1 p.2) m = some mp
            ∧ r.1 = { mp with start_block_number := tip + 1 })
      ∧ (∀ m event meta m', process_event m event meta = some m' →
          m'.start_block_number = meta.block_number
            ∧ m'.published = m.published ++ [⟨m.chain_id, "Axon solidity event streaming",
                meta.block_number, [⟨event, meta.block_number, meta.transaction_hash⟩]⟩]) := by
  refine ⟨?_, ?_, ?_⟩
  · intro m env r h
    cases hcmd : env.cmd <;> simp only [run_once, hcmd] at h
    · obtain rfl := (Option.some.injEq _ _).mp h
      exact Nat.le_refl _
    · cases htip : env.tip_block_number <;> simp only [htip] at h
      · obtain rfl := (Option.some.injEq _ _).mp h
        exact Nat.le_refl _
      · rename_i tip
        by_cases hge : m.start_block_number ≥ tip
        · rw [if_pos hge] at h
          obtain rfl := (Option.some.injEq _ _).mp h
          exact Nat.le_refl _
        · rw [if_neg hge] at h
          cases hev : env.events_in m.start_block_number tip <;> simp only [hev] at h
          · obtain rfl := (Option.some.injEq _ _).mp h
            exact Nat.le_refl _
          · rename_i events
            cases hfold : events.foldlM (fun acc p => process_event acc p.1 p.2) m <;>
              simp only [hfold] at h
            · exact Option.noConfusion h
            · rename_i mp
              obtain rfl := (Option.some.injEq _ _).mp h
              simp only []
              omega
  · intro m env r h hne
    cases hcmd : env.cmd <;> simp only [run_once, hcmd] at h
    · obtain rfl := (Option.some.injEq _ _).mp h
      exact absurd rfl hne
    · cases htip : env.tip_block_number <;> simp only [htip] at h
      · obtain rfl := (Option.some.injEq _ _).mp h
        exact absurd rfl hne
      · rename_i tip
        by_cases hge : m.start_block_number ≥ tip
        · rw [if_pos hge] at h
          obtain rfl := (Option.some.injEq _ _).mp h
          exact absurd rfl hne
        · rw [if_neg hge] at h
          cases hev : env.events_in m.start_block_number tip <;> simp only [hev] at h
          · obtain rfl := (Option.some.injEq _ _).mp h
            exact absurd rfl hne
          · rename_i events
            cases hfold : events.foldlM (fun acc p => process_event acc p.1 p.2) m <;>
              simp only [hfold] at h
            · exact Option.noConfusion h
            · rename_i mp
              obtain rfl := (Option.some.injEq _ _).mp h
              exact ⟨tip, events, mp, rfl, by omega, hev, hfold, rfl⟩
  · intro m event meta m' h
    simp only [process_event] at h
    cases hc : cache_ics_tx_hash_with_event m.ibc_cache event meta.transaction_hash with
    | none =>
        simp only [hc] at h
        exact Option.noConfusion h
    | some cache =>
        simp only [hc] at h
        obtain rfl := (Option.some.injEq _ _).mp h
        exact ⟨rfl, rfl⟩

/-- A monitor at position 100 with no pending reprocessing. -/
def idleMonitor : AxonEventMonitor := ⟨"axon", 100, [], IBCInfoCache.empty, []⟩

/-- A cycle environment: no command, tip at block 105, no events. -/
def idleEnv : MonitorEnv := ⟨.noCommand, some 105, fun _ _ => some []⟩

/-- Witness for C8 (amended): a concrete cycle advancing the position
from 100 to 106 — never below its previous value. -/
theorem C8_witness :
    idleMonitor.start_block_number
      ≤ ((⟨"axon", 106, [], IBCInfoCache.empty, []⟩, Next.Continue, true)
          : AxonEventMonitor × Next × Bool).1.start_block_number :=
  C8_run_once_monotone_reprocess_rewinds.1 idleMonitor idleEnv
    (⟨"axon", 106, [], IBCInfoCache.empty, []⟩, Next.Continue, true) (by rfl)

/-- C9: the tx-hash correlation cache is updated exactly for the events
whose logical type maps to a known cache key — the four connection-open
events (keyed by connection id), the four channel-open events (keyed by
channel and port id), and the send/receive packet events (keyed by
channel, port and sequence) — while every other event type leaves the
cache untouched (and a cached event with its identifier missing
panics, modelled as `none`). -/
theorem C9_cache_dispatch (cache : IBCInfoCache) (event : IbcEvent) (tx_hash : Nat) :
    cache_ics_tx_hash_with_event cache event tx_hash
      = match event with
        | .OpenInitConnection a => a.connection_id.map (fun c =>
            { cache with conn_tx_hash := mapInsert c tx_hash cache.conn_tx_hash })
        | .OpenTryConnection a => a.connection_id.map (fun c =>
            { cache with conn_tx_hash := mapInsert c tx_hash cache.conn_tx_hash })
        | .OpenAckConnection a => a.connection_id.map (fun c =>
            { cache with conn_tx_hash := mapInsert c tx_hash cache.conn_tx_hash })
        | .OpenConfirmConnection a => a.connection_id.map (fun c =>
            { cache with conn_tx_hash := mapInsert c tx_hash cache.conn_tx_hash })
        | .OpenInitChannel a => a.channel_id.map (fun c =>
            { cache with chan_tx_hash := mapInsert (c, a.port_id) tx_hash cache.chan_tx_hash })
        | .OpenTryChannel a => a.channel_id.map (fun c =>
            { cache with chan_tx_hash := mapInsert (c, a.port_id) tx_hash cache.chan_tx_hash })
        | .OpenAckChannel a => a.channel_id.map (fun c =>
            { cache with chan_tx_hash := mapInsert (c, a.port_id) tx_hash cache.chan_tx_hash })
        | .OpenConfirmChannel a => a.channel_id.map (fun c =>
            { cache with chan_tx_hash := mapInsert (c, a.port_id) tx_hash cache.chan_tx_hash })
        | .SendPacket p =>
            some { cache with
              packet_tx_hash := mapInsert (p.source_channel, p.source_port, p.sequence) tx_hash cache.packet_tx_hash }
        | .ReceivePacket p =>
            some { cache with
              packet_tx_hash := mapInsert (p.destination_channel, p.destination_port, p.sequence) tx_hash cache.packet_tx_hash }
        | _ => some cache := by
  cases event with
  | OpenInitConnection a => rcases a with ⟨cid⟩; cases cid <;> rfl
  | OpenTryConnection a => rcases a with ⟨cid⟩; cases cid <;> rfl
  | OpenAckConnection a => rcases a with ⟨cid⟩; cases cid <;> rfl
  | OpenConfirmConnection a => rcases a with ⟨cid⟩; cases cid <;> rfl
  | OpenInitChannel a => rcases a with ⟨cid, pid⟩; cases cid <;> rfl
  | OpenTryChannel a => rcases a with ⟨cid, pid⟩; cases cid <;> rfl
  | OpenAckChannel a => rcases a with ⟨cid, pid⟩; cases cid <;> rfl
  | OpenConfirmChannel a => rcases a with ⟨cid, pid⟩; cases cid <;> rfl
  | SendPacket p => rfl
  | ReceivePacket p => rfl
  | CloseInitChannel a => rfl
  | CloseConfirmChannel a => rfl
  | WriteAcknowledgement p => rfl
  | AcknowledgePacket p => rfl
  | TimeoutPacket p => rfl
  | CreateClient c => rfl
  | UpdateClient c => rfl
  | NewBlock h => rfl

/-- C10: whenever `latest_block_count` exceeds the monitor's current
`start_block_number`, `restore_event_tx_hashes` fails via the checked
subtraction with the dedicated error, returning the monitor unchanged —
no events are returned and nothing is flagged for reprocessing. -/
theorem C10_restore_rejects_overlong_rescan (m : AxonEventMonitor)
    (latest_block_count : Nat) (env : MonitorEnv)
    (hgt : m.start_block_number < latest_block_count) :
    restore_event_tx_hashes m latest_block_count env
      = (m, .error (Error.other_error ("latest_block_count " ++ toString latest_block_count
          ++ " exceeds start_block_number " ++ toString m.start_block_number))) := by
  simp only [restore_event_tx_hashes, checked_sub]
  rw [if_neg (by omega)]

/-- Witness for C10: re-scanning 101 blocks from position 100 fails and
leaves the monitor untouched. -/
theorem C10_witness :
    restore_event_tx_hashes ⟨"axon", 100, [], IBCInfoCache.empty, []⟩ 101
        ⟨.noCommand, none, fun _ _ => some []⟩
      = (⟨"axon", 100, [], IBCInfoCache.empty, []⟩, .error (Error.other_error
          ("latest_block_count " ++ toString (101 : Nat)
            ++ " exceeds start_block_number " ++ toString (100 : Nat)))) :=
  C10_restore_rejects_overlong_rescan ⟨"axon", 100, [], IBCInfoCache.empty, []⟩ 101
    ⟨.noCommand, none, fun _ _ => some []⟩ (by decide)

end Forcerelay
